import Mathlib

/-!
Shallow embedding of `src/main.rs` of hetzer_ddns_rust, a dynamic DNS
updater for the Hetzner DNS API.  The program is a single linear `main`:
load configuration, resolve the public IPv4 (required) and IPv6
(best-effort) addresses, locate the zone and the A / AAAA records, and
issue a PUT when a stored value differs from the resolved address.

External effects are modelled by passing the outside world's responses as
explicit arguments (environment variables, HTTP response bodies, and a
success flag per PUT) and by recording every outbound HTTP call in a
trace, together with every line printed to stdout and the final
`Result` of `main`.
-/

/-- Mirror of the Rust struct `Zone` (`id`, `name`), deserialised from
`GET /zones`. -/
structure Zone where
  id : String
  name : String
deriving DecidableEq, Repr

/-- Mirror of the Rust struct `Record` (`id`, `type` renamed to
`record_type`, `name`, `value`, `zone_id`, `ttl`), deserialised from
`GET /records?zone_id=...` and serialised back for `PUT /records/...`. -/
structure Record where
  id : String
  record_type : String
  name : String
  value : String
  zone_id : String
  ttl : Option Nat
deriving DecidableEq, Repr

/-- One outbound HTTP call of the program, in the order issued. -/
inductive Call where
  | getIp4 : Call
  | getIp6 : Call
  | getZones : Call
  | getRecords : String → Call
  | putRecord : String → Record → Call
deriving DecidableEq, Repr

/-- Result of one run of `main`: the trace of outbound HTTP calls, the
lines printed to stdout, and the value `main` returns (`.ok ()` or the
propagated error message). -/
structure RunOut where
  calls : List Call
  output : List String
  result : Except String Unit
deriving Repr

/-- Mirror of Rust's `str::trim` (`main.rs` lines 74 and 77): drop
leading and trailing whitespace. -/
def rustTrim (s : String) : String :=
  ⟨((s.data.dropWhile Char.isWhitespace).reverse.dropWhile Char.isWhitespace).reverse⟩

/-- Mirror of Rust's `str::split(sep)` on a character list: every maximal
(possibly empty) run between separators becomes one piece, so the result
is always non-empty and `""` splits to `[""]`. -/
def splitChar (sep : Char) : List Char → List String
  | [] => [""]
  | c :: cs =>
    match splitChar sep cs with
    | [] => if c = sep then ["", ""] else [String.mk [c]]
    | r :: rs =>
      if c = sep then "" :: r :: rs
      else String.mk (c :: r.data) :: rs

/-- Mirror of Rust's `s.split(sep).collect::<Vec<_>>()`. -/
def rustSplit (s : String) (sep : Char) : List String := splitChar sep s.data

/-- Mirror of `main.rs` lines 63-69: split the FQDN at every `'.'`; fewer
than two labels is a configuration error; otherwise the first label is
`record_name` and the rest joined by `"."` is `zone_name`. -/
def parseTarget (dns_fqdn : String) : Option (String × String) :=
  let parts := rustSplit dns_fqdn '.'
  if parts.length < 2 then none
  else some (parts.headD "", String.intercalate "." parts.tail)

/-- Mirror of `records.records.iter().find(|r| r.name == record_name &&
r.record_type == ty)` (`main.rs` lines 93 and 118). -/
def findRecord (records : List Record) (record_name ty : String) : Option Record :=
  records.find? (fun r => r.name == record_name && r.record_type == ty)

/-- Mirror of the update payload construction (`main.rs` lines 96-100 and
121-125): same record with `value` replaced and `ttl` forced to 60. -/
def updatedRecord (r : Record) (ip : String) : Record :=
  { r with value := ip, ttl := some 60 }

/-- Mirror of the A-record block, `main.rs` lines 93-113.  Returns the
calls issued, the lines printed, and whether control continues past the
block (`false` exactly when the PUT's `send()?` propagated an error). -/
def phaseA (record_name ip4 : String) (records : List Record) (putOk : Bool) :
    List Call × List String × Bool :=
  match findRecord records record_name "A" with
  | some record4 =>
    if record4.value != ip4 then
      let upd := updatedRecord record4 ip4
      if putOk then
        ([Call.putRecord record4.id upd],
         ["🔄 Updating A record from " ++ record4.value ++ " to " ++ ip4,
          "✅ A record updated."], true)
      else
        ([Call.putRecord record4.id upd],
         ["🔄 Updating A record from " ++ record4.value ++ " to " ++ ip4], false)
    else
      ([], ["✅ A record already up to date: " ++ ip4], true)
  | none => ([], ["⚠️  A record not found."], true)

/-- Mirror of the AAAA block, `main.rs` lines 116-144: guarded by the
`--ipv6` flag and by an IPv6 address having been resolved, otherwise
identical in shape to `phaseA`. -/
def phaseAAAA (update_ipv6 : Bool) (ip6 : Option String) (record_name : String)
    (records : List Record) (putOk : Bool) : List Call × List String × Bool :=
  if update_ipv6 then
    match ip6 with
    | some ip6v =>
      match findRecord records record_name "AAAA" with
      | some record6 =>
        if record6.value != ip6v then
          let upd := updatedRecord record6 ip6v
          if putOk then
            ([Call.putRecord record6.id upd],
             ["🔄 Updating AAAA record from " ++ record6.value ++ " to " ++ ip6v,
              "✅ AAAA record updated."], true)
          else
            ([Call.putRecord record6.id upd],
             ["🔄 Updating AAAA record from " ++ record6.value ++ " to " ++ ip6v], false)
        else
          ([], ["✅ AAAA record already up to date: " ++ ip6v], true)
      | none => ([], ["⚠️  AAAA record not found."], true)
    | none => ([], ["ℹ️  No public IPv6 address found. Skipping AAAA update."], true)
  else
    ([], ["ℹ️  Skipping AAAA update (use --ipv6 to enable)."], true)

/-- Error message of `main.rs` line 59. -/
def msgNoToken : String := "❌ Missing HETZNER_API_TOKEN in environment (check .env file)"

/-- Error message of `main.rs` line 60. -/
def msgNoFqdn : String := "❌ Missing DNS_FQDN in environment (check .env file)"

/-- Error message of `main.rs` line 65. -/
def msgBadFqdn : String := "DNS_FQDN must be a valid FQDN (e.g. dyndns.example.com)"

/-- Error message of `main.rs` line 85. -/
def msgZoneNotFound : String := "❌ Zone not found"

/-- Stand-in for a propagated `reqwest` transport error (the Rust error
value is opaque; only its fatality matters). -/
def msgNet : String := "network error"

/-- The four GET calls every run that reaches the record listing has
issued, in program order (`main.rs` lines 74, 75, 80, 88). -/
def preCalls (zoneId : String) : List Call :=
  [Call.getIp4, Call.getIp6, Call.getZones, Call.getRecords zoneId]

/-- Tail of `main` once the record list is in hand (`main.rs` lines
92-147): run the A block; if its PUT propagated an error `main` returns
there, otherwise run the AAAA block and return its outcome. -/
def runPhases (update_ipv6 : Bool) (record_name ip4 : String) (ip6 : Option String)
    (zoneId : String) (records : List Record) (putOk4 putOk6 : Bool) : RunOut :=
  match phaseA record_name ip4 records putOk4 with
  | (c4, o4, true) =>
    match phaseAAAA update_ipv6 ip6 record_name records putOk6 with
    | (c6, o6, ok6) =>
      ⟨preCalls zoneId ++ c4 ++ c6, o4 ++ o6, if ok6 then .ok () else .error msgNet⟩
  | (c4, o4, false) => ⟨preCalls zoneId ++ c4, o4, .error msgNet⟩

/-- Shallow embedding of `main` (`main.rs` lines 43-147).  Arguments are
the outside world's inputs in program order: the `--ipv6` flag, the two
environment variables (absent = `none`), the bodies returned by the two
IP echo services (failed request or body read = `none`), the parsed zone
and record listings (failed request or JSON decode = `none`), and whether
each of the two possible PUTs succeeds. -/
def run (update_ipv6 : Bool) (apiToken dnsFqdn : Option String)
    (ip4Resp ip6Resp : Option String) (zonesResp : Option (List Zone))
    (recordsResp : Option (List Record)) (putOk4 putOk6 : Bool) : RunOut :=
  match apiToken with
  | none => ⟨[], [], .error msgNoToken⟩
  | some _ =>
    match dnsFqdn with
    | none => ⟨[], [], .error msgNoFqdn⟩
    | some dns_fqdn =>
      match parseTarget dns_fqdn with
      | none => ⟨[], [], .error msgBadFqdn⟩
      | some (record_name, zone_name) =>
        match ip4Resp with
        | none => ⟨[Call.getIp4], [], .error msgNet⟩
        | some body4 =>
          let ip4 := (rustTrim body4)
          let ip6 := ip6Resp.map rustTrim
          match zonesResp with
          | none => ⟨[Call.getIp4, Call.getIp6, Call.getZones], [], .error msgNet⟩
          | some zones =>
            match zones.find? (fun z => z.name == zone_name) with
            | none => ⟨[Call.getIp4, Call.getIp6, Call.getZones], [], .error msgZoneNotFound⟩
            | some zone =>
              match recordsResp with
              | none =>
                ⟨[Call.getIp4, Call.getIp6, Call.getZones, Call.getRecords zone.id], [],
                 .error msgNet⟩
              | some records =>
                runPhases update_ipv6 record_name ip4 ip6 zone.id records putOk4 putOk6

/-- A call is the PUT belonging to record `r`: same record id and same
immutable fields (`type`, `name`, `zone_id`) in the body. -/
def Call.isPutFor (r : Record) : Call → Bool
  | Call.putRecord i b =>
      i == r.id && b.record_type == r.record_type && b.name == r.name && b.zone_id == r.zone_id
  | _ => false

/-- A call is a PUT whose body carries the given record type. -/
def Call.isPutType (ty : String) : Call → Bool
  | Call.putRecord _ b => b.record_type == ty
  | _ => false

/-- A call touches the records endpoint: record listing or record update. -/
def Call.isRecordCall : Call → Bool
  | Call.getRecords _ => true
  | Call.putRecord _ _ => true
  | _ => false

/-! ### Basic lemmas about the embedding -/

theorem findRecord_name_type {records : List Record} {rn ty : String} {r : Record}
    (h : findRecord records rn ty = some r) : r.name = rn ∧ r.record_type = ty := by
  have hp := List.find?_some h
  simp only [Bool.and_eq_true, beq_iff_eq] at hp
  exact hp

theorem isPutFor_self (r : Record) (ip : String) :
    Call.isPutFor r (Call.putRecord r.id (updatedRecord r ip)) = true := by
  simp [Call.isPutFor, updatedRecord]

theorem isPutFor_false_of_type {c : Call} {ty : String} {r : Record}
    (hc : Call.isPutType ty c = true) (hr : r.record_type ≠ ty) :
    Call.isPutFor r c = false := by
  cases c with
  | putRecord i b =>
      simp only [Call.isPutType, beq_iff_eq] at hc
      have hb : (b.record_type == r.record_type) = false := by
        rw [hc]; exact beq_eq_false_iff_ne.mpr (fun h => hr h.symm)
      simp [Call.isPutFor, hb]
  | getIp4 => rfl
  | getIp6 => rfl
  | getZones => rfl
  | getRecords _ => rfl

theorem isPutType_false_of_type {c : Call} {ty ty' : String}
    (hc : Call.isPutType ty c = true) (hne : ty' ≠ ty) :
    Call.isPutType ty' c = false := by
  cases c with
  | putRecord i b =>
      simp only [Call.isPutType, beq_iff_eq] at hc
      have hb : (b.record_type == ty') = false := by
        rw [hc]; exact beq_eq_false_iff_ne.mpr (fun h => hne h.symm)
      simp [Call.isPutType, hb]
  | getIp4 => rfl
  | getIp6 => rfl
  | getZones => rfl
  | getRecords _ => rfl

theorem preCalls_no_put (zid : String) (p : Call → Bool)
    (h4 : p Call.getIp4 = false) (h6 : p Call.getIp6 = false)
    (hz : p Call.getZones = false) (hr : p (Call.getRecords zid) = false) :
    (preCalls zid).filter p = [] := by
  simp [preCalls, List.filter, h4, h6, hz, hr]

/-! ### Shape lemmas for the two reconciliation blocks -/

theorem phaseA_update {records : List Record} {rn ip4 : String} {r4 : Record} (p : Bool)
    (h : findRecord records rn "A" = some r4) (hne : r4.value ≠ ip4) :
    phaseA rn ip4 records p =
      ([Call.putRecord r4.id (updatedRecord r4 ip4)],
       if p then ["🔄 Updating A record from " ++ r4.value ++ " to " ++ ip4,
                  "✅ A record updated."]
       else ["🔄 Updating A record from " ++ r4.value ++ " to " ++ ip4], p) := by
  cases p <;> simp [phaseA, h, bne_iff_ne, hne]

theorem phaseA_uptodate {records : List Record} {rn ip4 : String} {r4 : Record} (p : Bool)
    (h : findRecord records rn "A" = some r4) (heq : r4.value = ip4) :
    phaseA rn ip4 records p = ([], ["✅ A record already up to date: " ++ ip4], true) := by
  simp [phaseA, h, bne_iff_ne, heq]

theorem phaseA_notfound {records : List Record} {rn ip4 : String} (p : Bool)
    (h : findRecord records rn "A" = none) :
    phaseA rn ip4 records p = ([], ["⚠️  A record not found."], true) := by
  simp [phaseA, h]

theorem phaseAAAA_disabled (ip6 : Option String) (rn : String) (records : List Record)
    (p : Bool) :
    phaseAAAA false ip6 rn records p =
      ([], ["ℹ️  Skipping AAAA update (use --ipv6 to enable)."], true) := rfl

theorem phaseAAAA_noip (rn : String) (records : List Record) (p : Bool) :
    phaseAAAA true none rn records p =
      ([], ["ℹ️  No public IPv6 address found. Skipping AAAA update."], true) := rfl

theorem phaseAAAA_notfound {records : List Record} {rn : String} (ip6v : String) (p : Bool)
    (h : findRecord records rn "AAAA" = none) :
    phaseAAAA true (some ip6v) rn records p = ([], ["⚠️  AAAA record not found."], true) := by
  simp [phaseAAAA, h]

theorem phaseA_calls_typed (rn ip4 : String) (records : List Record) (p : Bool) :
    ∀ c ∈ (phaseA rn ip4 records p).1, Call.isPutType "A" c = true := by
  intro c hc
  rcases hfind : findRecord records rn "A" with _ | r4
  · simp [phaseA, hfind] at hc
  · have hty := (findRecord_name_type hfind).2
    by_cases hv : r4.value = ip4
    · simp [phaseA_uptodate p hfind hv] at hc
    · rw [phaseA_update p hfind hv] at hc
      simp at hc
      simp [hc, Call.isPutType, updatedRecord, hty]

theorem phaseAAAA_calls_typed (flag : Bool) (ip6 : Option String) (rn : String)
    (records : List Record) (p : Bool) :
    ∀ c ∈ (phaseAAAA flag ip6 rn records p).1, Call.isPutType "AAAA" c = true := by
  intro c hc
  cases flag with
  | false => simp [phaseAAAA_disabled] at hc
  | true =>
    cases ip6 with
    | none => simp [phaseAAAA_noip] at hc
    | some ip6v =>
      rcases hfind : findRecord records rn "AAAA" with _ | r6
      · simp [phaseAAAA, hfind] at hc
      · have hty := (findRecord_name_type hfind).2
        by_cases hv : r6.value = ip6v
        · simp [phaseAAAA, hfind, bne_iff_ne, hv] at hc
        · cases p <;>
            (simp [phaseAAAA, hfind, bne_iff_ne, hv] at hc;
             simp [hc, Call.isPutType, updatedRecord, hty])

/-! ### Unfolding lemmas for `run` -/

theorem run_reach {flag : Bool} {tok fq body4 : String} {i6 : Option String}
    {zones : List Zone} {zone : Zone} {records : List Record}
    {rn zn : String} {p4 p6 : Bool}
    (hp : parseTarget fq = some (rn, zn))
    (hz : zones.find? (fun z => z.name == zn) = some zone) :
    run flag (some tok) (some fq) (some body4) i6 (some zones) (some records) p4 p6 =
      runPhases flag rn (rustTrim body4) (i6.map rustTrim) zone.id records p4 p6 := by
  simp [run, hp, hz]

theorem runPhases_ok {flag : Bool} {rn ip4 : String} {ip6 : Option String}
    {records : List Record} {p4 p6 : Bool} {c4 c6 : List Call} {o4 o6 : List String}
    {ok6 : Bool} (zid : String)
    (hA : phaseA rn ip4 records p4 = (c4, o4, true))
    (hB : phaseAAAA flag ip6 rn records p6 = (c6, o6, ok6)) :
    runPhases flag rn ip4 ip6 zid records p4 p6 =
      ⟨preCalls zid ++ c4 ++ c6, o4 ++ o6, if ok6 then .ok () else .error msgNet⟩ := by
  simp [runPhases, hA, hB]

theorem runPhases_fail {flag : Bool} {rn ip4 : String} {ip6 : Option String}
    {records : List Record} {p4 p6 : Bool} {c4 : List Call} {o4 : List String} (zid : String)
    (hA : phaseA rn ip4 records p4 = (c4, o4, false)) :
    runPhases flag rn ip4 ip6 zid records p4 p6 =
      ⟨preCalls zid ++ c4, o4, .error msgNet⟩ := by
  simp [runPhases, hA]

theorem filter_put_nil_of_typed {l : List Call} {ty : String} {r : Record}
    (hl : ∀ c ∈ l, Call.isPutType ty c = true) (hr : r.record_type ≠ ty) :
    l.filter (Call.isPutFor r) = [] :=
  List.filter_eq_nil_iff.mpr (fun c hc => by
    simp [isPutFor_false_of_type (hl c hc) hr])

theorem filter_type_nil_of_typed {l : List Call} {ty ty' : String}
    (hl : ∀ c ∈ l, Call.isPutType ty c = true) (hne : ty' ≠ ty) :
    l.filter (Call.isPutType ty') = [] :=
  List.filter_eq_nil_iff.mpr (fun c hc => by
    simp [isPutType_false_of_type (hl c hc) hne])

/-! ### Concrete fixtures (the worked example of the documentation) -/

/-- Example zone, id `z1` for `example.com`. -/
def zoneEx : Zone := ⟨"z1", "example.com"⟩

/-- Example stored A record for `dyn.example.com`. -/
def recA : Record := ⟨"r1", "A", "dyn", "1.2.3.4", "z1", none⟩

/-- Example stored AAAA record for `dyn.example.com`. -/
def recAAAA : Record := ⟨"r2", "AAAA", "dyn", "::2", "z1", some 300⟩

/-! ### Claim theorems -/

/-- C1: in every run where an A record matching the leaf hostname is
located and the resolved public IPv4 differs from its stored value, the
call trace holds exactly one PUT for that record, whose body sets `value`
to the new address and `ttl` to 60 while keeping `id`, `type`, `name`
and `zone_id` equal to the located record's. -/
theorem a_record_changed_one_put (flag : Bool) (tok fq body4 : String) (i6 : Option String)
    (zones : List Zone) (zone : Zone) (records : List Record) (r4 : Record)
    (rn zn : String) (p4 p6 : Bool)
    (hp : parseTarget fq = some (rn, zn))
    (hz : zones.find? (fun z => z.name == zn) = some zone)
    (h4 : findRecord records rn "A" = some r4)
    (hne : r4.value ≠ (rustTrim body4)) :
    (run flag (some tok) (some fq) (some body4) i6 (some zones) (some records)
        p4 p6).calls.filter (Call.isPutFor r4) =
      [Call.putRecord r4.id (updatedRecord r4 (rustTrim body4))] ∧
    (updatedRecord r4 (rustTrim body4)).value = (rustTrim body4) ∧
    (updatedRecord r4 (rustTrim body4)).ttl = some 60 ∧
    (updatedRecord r4 (rustTrim body4)).id = r4.id ∧
    (updatedRecord r4 (rustTrim body4)).record_type = r4.record_type ∧
    (updatedRecord r4 (rustTrim body4)).name = r4.name ∧
    (updatedRecord r4 (rustTrim body4)).zone_id = r4.zone_id := by
  refine ⟨?_, rfl, rfl, rfl, rfl, rfl, rfl⟩
  rw [run_reach hp hz]
  have hty4 : r4.record_type ≠ "AAAA" := by
    rw [(findRecord_name_type h4).2]; decide
  have hput := isPutFor_self r4 (rustTrim body4)
  cases p4 with
  | true =>
    rcases hB : phaseAAAA flag (i6.map rustTrim) rn records p6 with ⟨c6, o6, ok6⟩
    rw [runPhases_ok zone.id (by simpa using phaseA_update true h4 hne) hB]
    have hc6 : c6.filter (Call.isPutFor r4) = [] :=
      filter_put_nil_of_typed
        (fun c hc => phaseAAAA_calls_typed flag (i6.map rustTrim) rn records p6 c
          (by rw [hB]; exact hc)) hty4
    simp [List.filter_append, preCalls_no_put zone.id (Call.isPutFor r4) rfl rfl rfl rfl,
      hc6, List.filter_cons, hput]
  | false =>
    rw [runPhases_fail zone.id (by simpa using phaseA_update false h4 hne)]
    simp [List.filter_append, preCalls_no_put zone.id (Call.isPutFor r4) rfl rfl rfl rfl,
      List.filter_cons, hput]

/-- C1 witness: the documented example — stored A value `1.2.3.4`,
resolved address `5.6.7.8` — yields exactly the expected PUT. -/
theorem a_record_changed_one_put_witness :
    parseTarget "dyn.example.com" = some ("dyn", "example.com") ∧
    [zoneEx].find? (fun z => z.name == "example.com") = some zoneEx ∧
    findRecord [recA] "dyn" "A" = some recA ∧
    recA.value ≠ (rustTrim "5.6.7.8") ∧
    ((run false (some "token") (some "dyn.example.com") (some "5.6.7.8") none
        (some [zoneEx]) (some [recA]) true true).calls.filter (Call.isPutFor recA) =
      [Call.putRecord recA.id (updatedRecord recA (rustTrim "5.6.7.8"))] ∧
     (updatedRecord recA (rustTrim "5.6.7.8")).value = (rustTrim "5.6.7.8") ∧
     (updatedRecord recA (rustTrim "5.6.7.8")).ttl = some 60 ∧
     (updatedRecord recA (rustTrim "5.6.7.8")).id = recA.id ∧
     (updatedRecord recA (rustTrim "5.6.7.8")).record_type = recA.record_type ∧
     (updatedRecord recA (rustTrim "5.6.7.8")).name = recA.name ∧
     (updatedRecord recA (rustTrim "5.6.7.8")).zone_id = recA.zone_id) :=
  ⟨by decide, by decide, by decide, by decide,
   a_record_changed_one_put false "token" "dyn.example.com" "5.6.7.8" none
     [zoneEx] zoneEx [recA] recA "dyn" "example.com" true true
     (by decide) (by decide) (by decide) (by decide)⟩

/-- C2: in every run where an A record matching the leaf hostname is
located and the resolved public IPv4 equals its stored value, no PUT is
issued for that record and the run prints the up-to-date status line. -/
theorem a_record_uptodate_no_put (flag : Bool) (tok fq body4 : String) (i6 : Option String)
    (zones : List Zone) (zone : Zone) (records : List Record) (r4 : Record)
    (rn zn : String) (p4 p6 : Bool)
    (hp : parseTarget fq = some (rn, zn))
    (hz : zones.find? (fun z => z.name == zn) = some zone)
    (h4 : findRecord records rn "A" = some r4)
    (heq : r4.value = (rustTrim body4)) :
    (run flag (some tok) (some fq) (some body4) i6 (some zones) (some records)
        p4 p6).calls.filter (Call.isPutFor r4) = [] ∧
    ("✅ A record already up to date: " ++ (rustTrim body4)) ∈
      (run flag (some tok) (some fq) (some body4) i6 (some zones) (some records)
        p4 p6).output := by
  rw [run_reach hp hz]
  have hty4 : r4.record_type ≠ "AAAA" := by
    rw [(findRecord_name_type h4).2]; decide
  rcases hB : phaseAAAA flag (i6.map rustTrim) rn records p6 with ⟨c6, o6, ok6⟩
  rw [runPhases_ok zone.id (phaseA_uptodate p4 h4 heq) hB]
  have hc6 : c6.filter (Call.isPutFor r4) = [] :=
    filter_put_nil_of_typed
      (fun c hc => phaseAAAA_calls_typed flag (i6.map rustTrim) rn records p6 c
        (by rw [hB]; exact hc)) hty4
  constructor
  · simp [List.filter_append, preCalls_no_put zone.id (Call.isPutFor r4) rfl rfl rfl rfl, hc6]
  · simp

/-- C2 witness: stored A value `1.2.3.4` and resolved body `1.2.3.4\n`
(equal after trimming) yield no PUT and the up-to-date line. -/
theorem a_record_uptodate_no_put_witness :
    parseTarget "dyn.example.com" = some ("dyn", "example.com") ∧
    [zoneEx].find? (fun z => z.name == "example.com") = some zoneEx ∧
    findRecord [recA] "dyn" "A" = some recA ∧
    recA.value = (rustTrim "1.2.3.4\n") ∧
    ((run false (some "token") (some "dyn.example.com") (some "1.2.3.4\n") none
        (some [zoneEx]) (some [recA]) true true).calls.filter (Call.isPutFor recA) = [] ∧
     ("✅ A record already up to date: " ++ (rustTrim "1.2.3.4\n")) ∈
       (run false (some "token") (some "dyn.example.com") (some "1.2.3.4\n") none
         (some [zoneEx]) (some [recA]) true true).output) :=
  ⟨by decide, by decide, by decide, by decide,
   a_record_uptodate_no_put false "token" "dyn.example.com" "1.2.3.4\n" none
     [zoneEx] zoneEx [recA] recA "dyn" "example.com" true true
     (by decide) (by decide) (by decide) (by decide)⟩

/-- C3: an FQDN with at least two dot-separated labels derives
(`record_name`, `zone_name`) = (first label, remaining labels joined by
"."); an FQDN with fewer than two labels makes the run fail with the
FQDN configuration error, with no calls and no output. -/
theorem fqdn_split_target (fq : String) (flag : Bool) (tok : String)
    (i4 i6 : Option String) (z : Option (List Zone)) (r : Option (List Record))
    (p4 p6 : Bool) :
    (2 ≤ (rustSplit fq '.').length →
      parseTarget fq =
        some ((rustSplit fq '.').headD "",
              String.intercalate "." (rustSplit fq '.').tail)) ∧
    ((rustSplit fq '.').length < 2 →
      run flag (some tok) (some fq) i4 i6 z r p4 p6 = ⟨[], [], .error msgBadFqdn⟩) := by
  constructor
  · intro h
    simp [parseTarget, Nat.not_lt.mpr h]
  · intro h
    have hp : parseTarget fq = none := by simp [parseTarget, h]
    simp [run, hp]

/-- C3 witness: `dyn.example.com` splits into `dyn` / `example.com`, and
the one-label FQDN `localhost` is rejected before any call. -/
theorem fqdn_split_target_witness :
    (2 ≤ (rustSplit "dyn.example.com" '.').length ∧
     parseTarget "dyn.example.com" =
       some ((rustSplit "dyn.example.com" '.').headD "",
             String.intercalate "." (rustSplit "dyn.example.com" '.').tail)) ∧
    ((rustSplit "localhost" '.').length < 2 ∧
     run false (some "token") (some "localhost") none none none none true true =
       ⟨[], [], .error msgBadFqdn⟩) :=
  ⟨⟨by decide, (fqdn_split_target "dyn.example.com" false "token" none none none none
      true true).1 (by decide)⟩,
   ⟨by decide, (fqdn_split_target "localhost" false "token" none none none none
      true true).2 (by decide)⟩⟩

/-- C4: when no zone in the fetched zone list has a name equal to the
derived zone name, the run ends with the zone-not-found error right
after the zone listing: no record-listing and no record-update call is
ever issued. -/
theorem zone_not_found_aborts (flag : Bool) (tok fq body4 : String) (i6 : Option String)
    (zones : List Zone) (r : Option (List Record)) (rn zn : String) (p4 p6 : Bool)
    (hp : parseTarget fq = some (rn, zn))
    (hz : ∀ z ∈ zones, z.name ≠ zn) :
    run flag (some tok) (some fq) (some body4) i6 (some zones) r p4 p6 =
      ⟨[Call.getIp4, Call.getIp6, Call.getZones], [], .error msgZoneNotFound⟩ ∧
    (run flag (some tok) (some fq) (some body4) i6 (some zones) r p4 p6).calls.filter
      Call.isRecordCall = [] := by
  have hfind : zones.find? (fun z => z.name == zn) = none :=
    List.find?_eq_none.mpr (fun z hzz => by simp [hz z hzz])
  have hrun : run flag (some tok) (some fq) (some body4) i6 (some zones) r p4 p6 =
      ⟨[Call.getIp4, Call.getIp6, Call.getZones], [], .error msgZoneNotFound⟩ := by
    simp [run, hp, hfind]
  exact ⟨hrun, by rw [hrun]; rfl⟩

/-- C4 witness: account only holds `example.com`, target zone is
`other.com`: the run stops with the zone-not-found error after the three
GETs. -/
theorem zone_not_found_aborts_witness :
    parseTarget "dyn.other.com" = some ("dyn", "other.com") ∧
    (∀ z ∈ [zoneEx], z.name ≠ "other.com") ∧
    (run false (some "token") (some "dyn.other.com") (some "5.6.7.8") none
        (some [zoneEx]) none true true =
      ⟨[Call.getIp4, Call.getIp6, Call.getZones], [], .error msgZoneNotFound⟩ ∧
     (run false (some "token") (some "dyn.other.com") (some "5.6.7.8") none
        (some [zoneEx]) none true true).calls.filter Call.isRecordCall = []) :=
  ⟨by decide, by decide,
   zone_not_found_aborts false "token" "dyn.other.com" "5.6.7.8" none [zoneEx] none
     "dyn" "other.com" true true (by decide) (by decide)⟩

/-- C9: a missing API token, a missing FQDN, or an FQDN with fewer than
two labels makes the run fail with the corresponding configuration error
and an empty call trace — no network request of any kind is issued. -/
theorem config_error_no_network (flag : Bool) (tok fq i4 i6 : Option String)
    (z : Option (List Zone)) (r : Option (List Record)) (p4 p6 : Bool)
    (h : tok = none ∨ fq = none ∨ ∃ s, fq = some s ∧ (rustSplit s '.').length < 2) :
    (run flag tok fq i4 i6 z r p4 p6).calls = [] ∧
    ((run flag tok fq i4 i6 z r p4 p6).result = .error msgNoToken ∨
     (run flag tok fq i4 i6 z r p4 p6).result = .error msgNoFqdn ∨
     (run flag tok fq i4 i6 z r p4 p6).result = .error msgBadFqdn) := by
  rcases h with h | h | ⟨s, hs, hlen⟩
  · subst h; exact ⟨rfl, Or.inl rfl⟩
  · subst h
    cases tok with
    | none => exact ⟨rfl, Or.inl rfl⟩
    | some t => exact ⟨rfl, Or.inr (Or.inl rfl)⟩
  · subst hs
    have hp : parseTarget s = none := by simp [parseTarget, hlen]
    cases tok with
    | none => exact ⟨rfl, Or.inl rfl⟩
    | some t =>
      refine ⟨by simp [run, hp], Or.inr (Or.inr (by simp [run, hp]))⟩

/-- C9 witness: with the token present but a one-label FQDN, the run
makes no call and fails with a configuration error. -/
theorem config_error_no_network_witness :
    ((some "localhost" : Option String) = none ∨ (some "localhost" : Option String) = none ∨
      ∃ s, (some "localhost" : Option String) = some s ∧ (rustSplit s '.').length < 2) ∧
    ((run true (some "token") (some "localhost") none none none none false false).calls = [] ∧
     ((run true (some "token") (some "localhost") none none none none false false).result =
        .error msgNoToken ∨
      (run true (some "token") (some "localhost") none none none none false false).result =
        .error msgNoFqdn ∨
      (run true (some "token") (some "localhost") none none none none false false).result =
        .error msgBadFqdn)) :=
  ⟨Or.inr (Or.inr ⟨"localhost", rfl, by decide⟩),
   config_error_no_network true (some "token") (some "localhost") none none none none
     false false (Or.inr (Or.inr ⟨"localhost", rfl, by decide⟩))⟩

/-! ### Runs with the IPv6 flag unset -/

theorem run_ip6_unused (tok fq i4 i6 : Option String) (z : Option (List Zone))
    (r : Option (List Record)) (p4 p6 : Bool) :
    run false tok fq i4 i6 z r p4 p6 = run false tok fq i4 none z r p4 p6 := by
  cases tok with
  | none => rfl
  | some t =>
    cases fq with
    | none => rfl
    | some s =>
      rcases hpt : parseTarget s with _ | ⟨rn, zn⟩
      · simp [run, hpt]
      · cases i4 with
        | none => simp [run, hpt]
        | some b4 =>
          cases z with
          | none => simp [run, hpt]
          | some zones =>
            rcases hf : zones.find? (fun zo => zo.name == zn) with _ | zone
            · simp [run, hpt, hf]
            · cases r with
              | none => simp [run, hpt, hf]
              | some records =>
                rw [run_reach hpt hf, run_reach hpt hf]
                rcases hA : phaseA rn (rustTrim b4) records p4 with ⟨c4, o4, ok4⟩
                cases ok4
                · rw [runPhases_fail zone.id hA, runPhases_fail zone.id hA]
                · rw [runPhases_ok zone.id hA
                        (phaseAAAA_disabled (Option.map rustTrim i6) rn records p6),
                      runPhases_ok zone.id hA
                        (phaseAAAA_disabled (Option.map rustTrim none) rn records p6)]

theorem run_noipv6_no_aaaa_put (tok fq i4 i6 : Option String) (z : Option (List Zone))
    (r : Option (List Record)) (p4 p6 : Bool) :
    (run false tok fq i4 i6 z r p4 p6).calls.filter (Call.isPutType "AAAA") = [] := by
  cases tok with
  | none => rfl
  | some t =>
    cases fq with
    | none => rfl
    | some s =>
      rcases hpt : parseTarget s with _ | ⟨rn, zn⟩
      · simp [run, hpt, Call.isPutType]
      · cases i4 with
        | none => simp [run, hpt, Call.isPutType]
        | some b4 =>
          cases z with
          | none => simp [run, hpt, Call.isPutType]
          | some zones =>
            rcases hf : zones.find? (fun zo => zo.name == zn) with _ | zone
            · simp [run, hpt, hf, Call.isPutType]
            · cases r with
              | none => simp [run, hpt, hf, Call.isPutType]
              | some records =>
                rw [run_reach hpt hf]
                rcases hA : phaseA rn (rustTrim b4) records p4 with ⟨c4, o4, ok4⟩
                have hl : ∀ c ∈ c4, Call.isPutType "A" c = true := fun c hc =>
                  phaseA_calls_typed rn (rustTrim b4) records p4 c (by rw [hA]; exact hc)
                cases ok4
                · rw [runPhases_fail zone.id hA]
                  rw [List.filter_append,
                    preCalls_no_put zone.id (Call.isPutType "AAAA") rfl rfl rfl rfl,
                    filter_type_nil_of_typed hl (by decide)]
                  rfl
                · rw [runPhases_ok zone.id hA
                        (phaseAAAA_disabled (Option.map rustTrim i6) rn records p6)]
                  rw [List.filter_append, List.filter_append,
                    preCalls_no_put zone.id (Call.isPutType "AAAA") rfl rfl rfl rfl,
                    filter_type_nil_of_typed hl (by decide)]
                  rfl

theorem run_noipv6_skip_line (tok fq i4 i6 : Option String) (z : Option (List Zone))
    (r : Option (List Record)) (p4 p6 : Bool)
    (h : (run false tok fq i4 i6 z r p4 p6).result = .ok ()) :
    "ℹ️  Skipping AAAA update (use --ipv6 to enable)." ∈
      (run false tok fq i4 i6 z r p4 p6).output := by
  cases tok with
  | none => simp [run] at h
  | some t =>
    cases fq with
    | none => simp [run] at h
    | some s =>
      rcases hpt : parseTarget s with _ | ⟨rn, zn⟩
      · simp [run, hpt] at h
      · cases i4 with
        | none => simp [run, hpt] at h
        | some b4 =>
          cases z with
          | none => simp [run, hpt] at h
          | some zones =>
            rcases hf : zones.find? (fun zo => zo.name == zn) with _ | zone
            · simp [run, hpt, hf] at h
            · cases r with
              | none => simp [run, hpt, hf] at h
              | some records =>
                rw [run_reach hpt hf] at h ⊢
                rcases hA : phaseA rn (rustTrim b4) records p4 with ⟨c4, o4, ok4⟩
                cases ok4
                · rw [runPhases_fail zone.id hA] at h
                  simp [msgNet] at h
                · rw [runPhases_ok zone.id hA
                        (phaseAAAA_disabled (Option.map rustTrim i6) rn records p6)]
                  simp

/-- C6: with `--ipv6` unset the run's outcome never depends on the IPv6
lookup result (any two IPv6 responses give identical runs), no AAAA
record PUT is ever issued, and a run that succeeds ends by reporting the
skipped-disabled status line for the AAAA path. -/
theorem ipv6_unset_skips_aaaa (tok fq i4 a b i6 : Option String) (z : Option (List Zone))
    (r : Option (List Record)) (p4 p6 : Bool) :
    run false tok fq i4 a z r p4 p6 = run false tok fq i4 b z r p4 p6 ∧
    (run false tok fq i4 i6 z r p4 p6).calls.filter (Call.isPutType "AAAA") = [] ∧
    ((run false tok fq i4 i6 z r p4 p6).result = .ok () →
      "ℹ️  Skipping AAAA update (use --ipv6 to enable)." ∈
        (run false tok fq i4 i6 z r p4 p6).output) :=
  ⟨(run_ip6_unused tok fq i4 a z r p4 p6).trans (run_ip6_unused tok fq i4 b z r p4 p6).symm,
   run_noipv6_no_aaaa_put tok fq i4 i6 z r p4 p6,
   run_noipv6_skip_line tok fq i4 i6 z r p4 p6⟩

/-- C6 witness: a concrete flag-unset run ignores even a present IPv6
response, issues no AAAA PUT, and ends on the skipped-disabled line. -/
theorem ipv6_unset_skips_aaaa_witness :
    run false (some "token") (some "dyn.example.com") (some "5.6.7.8") (some "::1")
        (some [zoneEx]) (some [recA]) true true =
      run false (some "token") (some "dyn.example.com") (some "5.6.7.8") none
        (some [zoneEx]) (some [recA]) true true ∧
    (run false (some "token") (some "dyn.example.com") (some "5.6.7.8") (some "::1")
        (some [zoneEx]) (some [recA]) true true).calls.filter (Call.isPutType "AAAA") = [] ∧
    "ℹ️  Skipping AAAA update (use --ipv6 to enable)." ∈
      (run false (some "token") (some "dyn.example.com") (some "5.6.7.8") (some "::1")
        (some [zoneEx]) (some [recA]) true true).output :=
  ⟨(ipv6_unset_skips_aaaa (some "token") (some "dyn.example.com") (some "5.6.7.8")
      (some "::1") none (some "::1") (some [zoneEx]) (some [recA]) true true).1,
   (ipv6_unset_skips_aaaa (some "token") (some "dyn.example.com") (some "5.6.7.8")
      (some "::1") none (some "::1") (some [zoneEx]) (some [recA]) true true).2.1,
   (ipv6_unset_skips_aaaa (some "token") (some "dyn.example.com") (some "5.6.7.8")
      (some "::1") none (some "::1") (some [zoneEx]) (some [recA]) true true).2.2 rfl⟩

/-- C7: with `--ipv6` set but no IPv6 address resolved (the lookup failed
or returned no usable body), the AAAA path contributes no network call
and only the skipping line, and the run's calls, A-phase output and
result are exactly those of the A reconciliation alone. -/
theorem ipv6_lookup_failed_skips (tok fq body4 : String)
    (zones : List Zone) (zone : Zone) (records : List Record)
    (rn zn : String) (p4 p6 : Bool)
    (hp : parseTarget fq = some (rn, zn))
    (hz : zones.find? (fun z => z.name == zn) = some zone) :
    (run true (some tok) (some fq) (some body4) none (some zones) (some records)
        p4 p6).calls.filter (Call.isPutType "AAAA") = [] ∧
    ((phaseA rn (rustTrim body4) records p4).2.2 = true →
      run true (some tok) (some fq) (some body4) none (some zones) (some records) p4 p6 =
        ⟨preCalls zone.id ++ (phaseA rn (rustTrim body4) records p4).1,
         (phaseA rn (rustTrim body4) records p4).2.1 ++
           ["ℹ️  No public IPv6 address found. Skipping AAAA update."], .ok ()⟩) ∧
    ((phaseA rn (rustTrim body4) records p4).2.2 = false →
      run true (some tok) (some fq) (some body4) none (some zones) (some records) p4 p6 =
        ⟨preCalls zone.id ++ (phaseA rn (rustTrim body4) records p4).1,
         (phaseA rn (rustTrim body4) records p4).2.1, .error msgNet⟩) := by
  rw [run_reach hp hz]
  simp only [Option.map_none']
  rcases hA : phaseA rn (rustTrim body4) records p4 with ⟨c4, o4, ok4⟩
  have hl : ∀ c ∈ c4, Call.isPutType "A" c = true := fun c hc =>
    phaseA_calls_typed rn (rustTrim body4) records p4 c (by rw [hA]; exact hc)
  cases ok4
  · rw [runPhases_fail zone.id hA]
    refine ⟨?_, ?_, ?_⟩
    · rw [List.filter_append,
        preCalls_no_put zone.id (Call.isPutType "AAAA") rfl rfl rfl rfl,
        filter_type_nil_of_typed hl (by decide)]
      rfl
    · intro hcontr; simp at hcontr
    · intro _; rfl
  · rw [runPhases_ok zone.id hA (phaseAAAA_noip rn records p6)]
    refine ⟨?_, ?_, ?_⟩
    · rw [List.filter_append, List.filter_append,
        preCalls_no_put zone.id (Call.isPutType "AAAA") rfl rfl rfl rfl,
        filter_type_nil_of_typed hl (by decide)]
      rfl
    · intro _; simp
    · intro hcontr; simp at hcontr

/-- C7 witness: flag set, IPv6 lookup failed, up-to-date A record — the
run succeeds with no AAAA call, ending on the no-address skip line. -/
theorem ipv6_lookup_failed_skips_witness :
    parseTarget "dyn.example.com" = some ("dyn", "example.com") ∧
    [zoneEx].find? (fun z => z.name == "example.com") = some zoneEx ∧
    (phaseA "dyn" (rustTrim "1.2.3.4\n") [recA] true).2.2 = true ∧
    ((run true (some "token") (some "dyn.example.com") (some "1.2.3.4\n") none
        (some [zoneEx]) (some [recA]) true true).calls.filter (Call.isPutType "AAAA") = [] ∧
     run true (some "token") (some "dyn.example.com") (some "1.2.3.4\n") none
        (some [zoneEx]) (some [recA]) true true =
       ⟨preCalls zoneEx.id ++ (phaseA "dyn" (rustTrim "1.2.3.4\n") [recA] true).1,
        (phaseA "dyn" (rustTrim "1.2.3.4\n") [recA] true).2.1 ++
          ["ℹ️  No public IPv6 address found. Skipping AAAA update."], .ok ()⟩) :=
  ⟨by decide, by decide, by decide,
   (ipv6_lookup_failed_skips "token" "dyn.example.com" "1.2.3.4\n" [zoneEx] zoneEx [recA]
      "dyn" "example.com" true true (by decide) (by decide)).1,
   (ipv6_lookup_failed_skips "token" "dyn.example.com" "1.2.3.4\n" [zoneEx] zoneEx [recA]
      "dyn" "example.com" true true (by decide) (by decide)).2.1 (by decide)⟩

/-- C5 counterexample: `--ipv6` set, IPv6 address resolved, differing
AAAA record present — yet when the A-record PUT fails, `main` returns at
once: the trace ends at the failed A PUT, holds no AAAA call, and the
output holds no AAAA line, so the AAAA reconciliation is never
attempted. -/
theorem put_failure_stops_run_cex :
    (run true (some "token") (some "dyn.example.com") (some "5.6.7.8") (some "::1")
        (some [zoneEx]) (some [recA, recAAAA]) false true).calls =
      preCalls "z1" ++ [Call.putRecord "r1" (updatedRecord recA "5.6.7.8")] ∧
    (run true (some "token") (some "dyn.example.com") (some "5.6.7.8") (some "::1")
        (some [zoneEx]) (some [recA, recAAAA]) false true).output =
      ["🔄 Updating A record from 1.2.3.4 to 5.6.7.8"] ∧
    (run true (some "token") (some "dyn.example.com") (some "5.6.7.8") (some "::1")
        (some [zoneEx]) (some [recA, recAAAA]) false true).result = .error msgNet ∧
    (run true (some "token") (some "dyn.example.com") (some "5.6.7.8") (some "::1")
        (some [zoneEx]) (some [recA, recAAAA]) false true).calls.filter
      (Call.isPutType "AAAA") = [] ∧
    findRecord [recA, recAAAA] "dyn" "AAAA" = some recAAAA ∧
    recAAAA.value ≠ (rustTrim "::1") :=
  ⟨rfl, rfl, rfl, rfl, rfl, by decide⟩

/-- Mirror lemma for the AAAA update branch (`main.rs` lines 118-131):
with the flag set, an address resolved, and a differing AAAA record
located, the block issues its PUT and continues iff the PUT succeeds. -/
theorem phaseAAAA_update {records : List Record} {rn ip6v : String} {r6 : Record} (p : Bool)
    (h : findRecord records rn "AAAA" = some r6) (hne : r6.value ≠ ip6v) :
    phaseAAAA true (some ip6v) rn records p =
      ([Call.putRecord r6.id (updatedRecord r6 ip6v)],
       if p then ["🔄 Updating AAAA record from " ++ r6.value ++ " to " ++ ip6v,
                  "✅ AAAA record updated."]
       else ["🔄 Updating AAAA record from " ++ r6.value ++ " to " ++ ip6v], p) := by
  cases p <;> simp [phaseAAAA, h, bne_iff_ne, hne]

/-- C5 amended: a failing PUT is fatal to the entire run, not just to
that record's reconciliation.  When the A-record PUT fails, `main`
propagates the error immediately, so the AAAA reconciliation (whatever
the flag, address or records) is never attempted: the trace ends at the
failed A PUT.  When the AAAA-record PUT fails, the run fails only after
the A reconciliation has already completed: the trace and output hold
the whole A phase, followed by the failed AAAA PUT and the error. -/
theorem put_failure_stops_run (flag : Bool) (tok fq body4 v : String) (i6 : Option String)
    (zones : List Zone) (zone : Zone) (records : List Record) (r4 r6 : Record)
    (rn zn : String) (p4 p6 : Bool)
    (hp : parseTarget fq = some (rn, zn))
    (hz : zones.find? (fun z => z.name == zn) = some zone) :
    (findRecord records rn "A" = some r4 → r4.value ≠ (rustTrim body4) →
      run flag (some tok) (some fq) (some body4) i6 (some zones) (some records) false p6 =
        ⟨preCalls zone.id ++ [Call.putRecord r4.id (updatedRecord r4 (rustTrim body4))],
         ["🔄 Updating A record from " ++ r4.value ++ " to " ++ (rustTrim body4)],
         .error msgNet⟩) ∧
    (flag = true → i6 = some v → findRecord records rn "AAAA" = some r6 →
      r6.value ≠ (rustTrim v) → (phaseA rn (rustTrim body4) records p4).2.2 = true →
      run true (some tok) (some fq) (some body4) (some v) (some zones) (some records)
          p4 false =
        ⟨preCalls zone.id ++ (phaseA rn (rustTrim body4) records p4).1 ++
           [Call.putRecord r6.id (updatedRecord r6 (rustTrim v))],
         (phaseA rn (rustTrim body4) records p4).2.1 ++
           ["🔄 Updating AAAA record from " ++ r6.value ++ " to " ++ (rustTrim v)],
         .error msgNet⟩) := by
  constructor
  · intro h4 hne
    rw [run_reach hp hz]
    exact runPhases_fail zone.id (by simpa using phaseA_update false h4 hne)
  · intro _ _ h6 hne6 hAok
    rw [run_reach hp hz]
    simp only [Option.map_some']
    rcases hA : phaseA rn (rustTrim body4) records p4 with ⟨c4, o4, ok4⟩
    rw [hA] at hAok
    simp only at hAok
    subst hAok
    rw [runPhases_ok zone.id hA (by simpa using phaseAAAA_update false h6 hne6)]
    simp

/-- C5 amended witness: in the counterexample scenario the failed A PUT
ends the run with no AAAA activity, and in the same world with the A PUT
succeeding and the AAAA PUT failing the run fails only after the full A
phase. -/
theorem put_failure_stops_run_witness :
    parseTarget "dyn.example.com" = some ("dyn", "example.com") ∧
    [zoneEx].find? (fun z => z.name == "example.com") = some zoneEx ∧
    run true (some "token") (some "dyn.example.com") (some "5.6.7.8") (some "::1")
        (some [zoneEx]) (some [recA, recAAAA]) false true =
      ⟨preCalls zoneEx.id ++ [Call.putRecord recA.id (updatedRecord recA (rustTrim "5.6.7.8"))],
       ["🔄 Updating A record from " ++ recA.value ++ " to " ++ (rustTrim "5.6.7.8")],
       .error msgNet⟩ ∧
    run true (some "token") (some "dyn.example.com") (some "5.6.7.8") (some "::1")
        (some [zoneEx]) (some [recA, recAAAA]) true false =
      ⟨preCalls zoneEx.id ++ (phaseA "dyn" (rustTrim "5.6.7.8") [recA, recAAAA] true).1 ++
         [Call.putRecord recAAAA.id (updatedRecord recAAAA (rustTrim "::1"))],
       (phaseA "dyn" (rustTrim "5.6.7.8") [recA, recAAAA] true).2.1 ++
         ["🔄 Updating AAAA record from " ++ recAAAA.value ++ " to " ++ (rustTrim "::1")],
       .error msgNet⟩ :=
  ⟨by decide, by decide,
   (put_failure_stops_run true "token" "dyn.example.com" "5.6.7.8" "::1" (some "::1")
      [zoneEx] zoneEx [recA, recAAAA] recA recAAAA "dyn" "example.com" true true
      (by decide) (by decide)).1 (by decide) (by decide),
   (put_failure_stops_run true "token" "dyn.example.com" "5.6.7.8" "::1" (some "::1")
      [zoneEx] zoneEx [recA, recAAAA] recA recAAAA "dyn" "example.com" true true
      (by decide) (by decide)).2 rfl rfl (by decide) (by decide) (by decide)⟩

/-- C8: a missing record of the requested type is not fatal to the run.
With no matching A record, the run prints the A-not-found line, issues
no A PUT, and the rest of the run is exactly the AAAA phase's outcome;
with no matching AAAA record (flag set, address resolved) after a
completed A phase, the run prints the AAAA-not-found line, issues no
AAAA PUT, and returns success. -/
theorem record_not_found_continues (flag : Bool) (tok fq body4 v : String)
    (i6 : Option String) (zones : List Zone) (zone : Zone) (records : List Record)
    (rn zn : String) (p4 p6 : Bool)
    (hp : parseTarget fq = some (rn, zn))
    (hz : zones.find? (fun z => z.name == zn) = some zone) :
    (findRecord records rn "A" = none →
      (run flag (some tok) (some fq) (some body4) i6 (some zones) (some records)
          p4 p6).calls.filter (Call.isPutType "A") = [] ∧
      run flag (some tok) (some fq) (some body4) i6 (some zones) (some records) p4 p6 =
        ⟨preCalls zone.id ++ (phaseAAAA flag (i6.map rustTrim) rn records p6).1,
         "⚠️  A record not found." :: (phaseAAAA flag (i6.map rustTrim) rn records p6).2.1,
         if (phaseAAAA flag (i6.map rustTrim) rn records p6).2.2 then .ok ()
         else .error msgNet⟩) ∧
    (i6 = some v → flag = true → findRecord records rn "AAAA" = none →
      (phaseA rn (rustTrim body4) records p4).2.2 = true →
      (run true (some tok) (some fq) (some body4) (some v) (some zones) (some records)
          p4 p6).calls.filter (Call.isPutType "AAAA") = [] ∧
      run true (some tok) (some fq) (some body4) (some v) (some zones) (some records) p4 p6 =
        ⟨preCalls zone.id ++ (phaseA rn (rustTrim body4) records p4).1,
         (phaseA rn (rustTrim body4) records p4).2.1 ++ ["⚠️  AAAA record not found."],
         .ok ()⟩) := by
  constructor
  · intro h4
    rw [run_reach hp hz]
    rcases hB : phaseAAAA flag (i6.map rustTrim) rn records p6 with ⟨c6, o6, ok6⟩
    rw [runPhases_ok zone.id (phaseA_notfound p4 h4) hB]
    have hpre : (preCalls zone.id).filter (Call.isPutType "A") = [] :=
      preCalls_no_put zone.id (Call.isPutType "A") rfl rfl rfl rfl
    have hc6 : c6.filter (Call.isPutType "A") = [] :=
      filter_type_nil_of_typed
        (fun c hc => phaseAAAA_calls_typed flag (i6.map rustTrim) rn records p6 c
          (by rw [hB]; exact hc)) (by decide)
    constructor
    · simp [List.filter_append, hpre, hc6]
    · simp
  · intro hv hfl h6 hAok
    rw [run_reach hp hz]
    simp only [Option.map_some']
    rcases hA : phaseA rn (rustTrim body4) records p4 with ⟨c4, o4, ok4⟩
    rw [hA] at hAok
    simp only at hAok
    subst hAok
    have hl : ∀ c ∈ c4, Call.isPutType "A" c = true := fun c hc =>
      phaseA_calls_typed rn (rustTrim body4) records p4 c (by rw [hA]; exact hc)
    rw [runPhases_ok zone.id hA (phaseAAAA_notfound (rustTrim v) p6 h6)]
    have hpre : (preCalls zone.id).filter (Call.isPutType "AAAA") = [] :=
      preCalls_no_put zone.id (Call.isPutType "AAAA") rfl rfl rfl rfl
    have hc4 : c4.filter (Call.isPutType "AAAA") = [] :=
      filter_type_nil_of_typed hl (by decide)
    constructor
    · simp [List.filter_append, hpre, hc4]
    · simp

/-- C8 witness: an empty record list — both the A and the AAAA lookup
miss — prints both not-found lines and the run still succeeds. -/
theorem record_not_found_continues_witness :
    parseTarget "dyn.example.com" = some ("dyn", "example.com") ∧
    [zoneEx].find? (fun z => z.name == "example.com") = some zoneEx ∧
    ((run true (some "token") (some "dyn.example.com") (some "5.6.7.8")
        (some "::1") (some [zoneEx]) (some ([] : List Record)) true true).calls.filter
        (Call.isPutType "A") = [] ∧
     run true (some "token") (some "dyn.example.com") (some "5.6.7.8") (some "::1")
        (some [zoneEx]) (some ([] : List Record)) true true =
       ⟨preCalls zoneEx.id ++
          (phaseAAAA true ((some "::1" : Option String).map rustTrim) "dyn" [] true).1,
        "⚠️  A record not found." ::
          (phaseAAAA true ((some "::1" : Option String).map rustTrim) "dyn" [] true).2.1,
        if (phaseAAAA true ((some "::1" : Option String).map rustTrim) "dyn" [] true).2.2
        then .ok () else .error msgNet⟩) ∧
    ((run true (some "token") (some "dyn.example.com") (some "5.6.7.8")
        (some "::1") (some [zoneEx]) (some ([] : List Record)) true true).calls.filter
        (Call.isPutType "AAAA") = [] ∧
     run true (some "token") (some "dyn.example.com") (some "5.6.7.8") (some "::1")
        (some [zoneEx]) (some ([] : List Record)) true true =
       ⟨preCalls zoneEx.id ++ (phaseA "dyn" (rustTrim "5.6.7.8") [] true).1,
        (phaseA "dyn" (rustTrim "5.6.7.8") [] true).2.1 ++ ["⚠️  AAAA record not found."],
        .ok ()⟩) :=
  ⟨by decide, by decide,
   (record_not_found_continues true "token" "dyn.example.com" "5.6.7.8" "::1" (some "::1")
      [zoneEx] zoneEx [] "dyn" "example.com" true true (by decide) (by decide)).1 rfl,
   (record_not_found_continues true "token" "dyn.example.com" "5.6.7.8" "::1" (some "::1")
      [zoneEx] zoneEx [] "dyn" "example.com" true true (by decide) (by decide)).2
     rfl rfl rfl (by decide)⟩

/-- C10 counterexample: a run that reaches the IP-resolution step — its
IPv4 echo GET is issued — but whose IPv4 request fails never issues the
IPv6 echo GET, so that GET is conditional on the IPv4 fetch succeeding,
not unconditional. -/
theorem ip6_get_unconditional_cex :
    (run false (some "token") (some "dyn.example.com") none (some "::1") (some [zoneEx])
        (some [recA]) true true).calls = [Call.getIp4] ∧
    Call.getIp6 ∉ (run false (some "token") (some "dyn.example.com") none (some "::1")
        (some [zoneEx]) (some [recA]) true true).calls :=
  ⟨rfl, by decide⟩

/-- C10 amended: on every run whose configuration loads and whose IPv4
echo GET succeeds, the IPv6 echo GET is issued regardless of the
`--ipv6` flag; with the flag unset its result is discarded — the run is
identical under any replacement of the IPv6 response. -/
theorem ip6_get_after_ip4 (flag : Bool) (tok fq body4 : String) (i6 : Option String)
    (z : Option (List Zone)) (r : Option (List Record)) (p4 p6 : Bool)
    (rn zn : String) (hp : parseTarget fq = some (rn, zn)) :
    Call.getIp6 ∈ (run flag (some tok) (some fq) (some body4) i6 z r p4 p6).calls ∧
    (flag = false →
      run flag (some tok) (some fq) (some body4) i6 z r p4 p6 =
        run flag (some tok) (some fq) (some body4) none z r p4 p6) := by
  constructor
  · cases z with
    | none => simp [run, hp]
    | some zones =>
      rcases hf : zones.find? (fun zo => zo.name == zn) with _ | zone
      · simp [run, hp, hf]
      · cases r with
        | none => simp [run, hp, hf]
        | some records =>
          rw [run_reach hp hf]
          rcases hA : phaseA rn (rustTrim body4) records p4 with ⟨c4, o4, ok4⟩
          cases ok4
          · rw [runPhases_fail zone.id hA]; simp [preCalls]
          · rcases hB : phaseAAAA flag (i6.map rustTrim) rn records p6 with ⟨c6, o6, ok6⟩
            rw [runPhases_ok zone.id hA hB]; simp [preCalls]
  · intro hfl; subst hfl
    exact run_ip6_unused (some tok) (some fq) (some body4) i6 z r p4 p6

/-- C10 amended witness: with the flag unset and the IPv4 fetch
succeeding, the IPv6 GET is still in the trace and the IPv6 response is
interchangeable with none. -/
theorem ip6_get_after_ip4_witness :
    Call.getIp6 ∈ (run false (some "token") (some "dyn.example.com") (some "5.6.7.8")
        (some "::1") (some [zoneEx]) (some [recA]) true true).calls ∧
    run false (some "token") (some "dyn.example.com") (some "5.6.7.8") (some "::1")
        (some [zoneEx]) (some [recA]) true true =
      run false (some "token") (some "dyn.example.com") (some "5.6.7.8") none
        (some [zoneEx]) (some [recA]) true true :=
  ⟨(ip6_get_after_ip4 false "token" "dyn.example.com" "5.6.7.8" (some "::1")
      (some [zoneEx]) (some [recA]) true true "dyn" "example.com" (by decide)).1,
   (ip6_get_after_ip4 false "token" "dyn.example.com" "5.6.7.8" (some "::1")
      (some [zoneEx]) (some [recA]) true true "dyn" "example.com" (by decide)).2 rfl⟩
